import Mathlib

/-!
Shallow embedding of `src/main.py` of the Code-Victor/movie-recommender
repository, together with theorems settling the frozen claims about it.

Modelling conventions:
* Python floats (similarity scores, ratings) are modelled as `ℚ`; the program
  only compares and stores them, so their ordered-field behaviour is all that
  matters (NaN never arises in the modelled paths).
* The catalog dataframe `new_movies_df` is modelled by its `title` column, a
  `List String` in row order; the similarity matrix by a `List (List ℚ)`.
* Network I/O is abstracted by an oracle `String → Except Unit MovieJson`:
  `.ok j` means the HTTP GET plus JSON decoding succeeded with payload `j`,
  `.error ()` means some exception was raised inside the `try` block.
* Python `None` is `Option.none`; the `""` returned by `handle_card_data` for
  `None` input is modelled as `none : Option CardHtml` (no card rendered),
  while a rendered card is `some c`.  An uncaught exception (e.g. `ValueError`
  from `float(...)`) is `Except.error ()`.
-/

namespace MovieRec

/-- The OMDb JSON payload restricted to the keys the program reads; each field
is `data.get(key)`, so a missing key is `none`. -/
structure MovieJson where
  Title : Option String
  Poster : Option String
  imdbRating : Option String
  imdbID : Option String
  Response : Option String
deriving DecidableEq

/-- The error raised by `recommend` when the title is absent: the pandas
selection is empty and `.index[0]` raises (the spec calls it `NotFoundError`). -/
inductive RecError where
  | NotFoundError
deriving DecidableEq

/-- Python substring test `needle in hay` on strings. -/
def strContains (needle hay : String) : Bool :=
  decide (needle.data <:+: hay.data)

/-- Python slice `l[:n]` for an integer `n`: a nonnegative bound keeps the
first `n` elements, a negative bound drops `-n` elements from the end
(clamped at zero). -/
def pySliceTo (l : List α) (n : Int) : List α :=
  if 0 ≤ n then l.take n.toNat else l.take ((l.length : Int) + n).toNat

/-- `new_movies_df[new_movies_df["title"] == movie].index[0]`: the position of
the first row whose title equals `movie`, or `none` (→ `IndexError`) if there
is no such row. -/
def firstMatchIndex (movie : String) : List String → Option Nat
  | [] => none
  | t :: ts => if t == movie then some 0 else (firstMatchIndex movie ts).map (· + 1)

/-- The comparison used by
`sorted(list(enumerate(similarity[index])), reverse=True, key=lambda x: x[1])`:
`a` may come before `b` iff `a`'s score is at least `b`'s. -/
def scoreGe (a b : Nat × ℚ) : Prop := b.2 ≤ a.2

instance : DecidableRel scoreGe := fun a b => inferInstanceAs (Decidable (b.2 ≤ a.2))

instance : IsTotal (Nat × ℚ) scoreGe := ⟨fun a b => le_total b.2 a.2⟩

instance : IsTrans (Nat × ℚ) scoreGe := ⟨fun _ _ _ h1 h2 => le_trans h2 h1⟩

/-- `distances = sorted(list(enumerate(similarity[index])), reverse=True,
key=lambda x: x[1])`.  Python's `sorted` is the stable descending sort by the
score component; `List.insertionSort scoreGe` is exactly that stable sort. -/
def sortedDistances (row : List ℚ) : List (Nat × ℚ) :=
  List.insertionSort scoreGe row.enum

/-- The loop `for i in distances[1:]: if movie in df.iloc[i[0]].title: continue`
restricted to the surviving index/score pairs: drop the first sorted entry,
then drop every candidate whose title contains `movie` as a substring. -/
def eligiblePairs (titles : List String) (movie : String) (row : List ℚ) :
    List (Nat × ℚ) :=
  ((sortedDistances row).drop 1).filter
    (fun i => ! strContains movie (titles.getD i.1 ""))

/-- The full `recommendations` list built by the loop body
`recommendations.append(new_movies_df.iloc[i[0]].title)` before the final
slice. -/
def eligible (titles : List String) (movie : String) (row : List ℚ) :
    List String :=
  (eligiblePairs titles movie row).map (fun i => titles.getD i.1 "")

/-- `recommend(movie, length)` from `src/main.py` lines 15–36: look up the
row index of `movie`, sort that similarity row descending, skip the first
entry and all substring matches, and return the slice `[:length]`.  An absent
title makes `.index[0]` raise, modelled as `RecError.NotFoundError`. -/
def recommend (titles : List String) (similarity : List (List ℚ))
    (movie : String) (length : Int) : Except RecError (List String) :=
  match firstMatchIndex movie titles with
  | none => .error .NotFoundError
  | some index =>
      .ok (pySliceTo (eligible titles movie (similarity.getD index [])) length)

/-- `getMovieData(name, session)` from lines 39–60: on a successful request
returns the decoded JSON body unchanged (whatever its contents), and on any
exception falls through the `except` clause, implicitly returning `None`. -/
def getMovieData (name : String) (oracle : String → Except Unit MovieJson) :
    Option MovieJson :=
  match oracle name with
  | .ok resp => some resp
  | .error _ => none

/-- `getAllMovies(names)` from lines 63–67: `asyncio.gather` issues one
`getMovieData` per input title and collects the results in input order. -/
def getAllMovies (names : List String)
    (oracle : String → Except Unit MovieJson) : List (Option MovieJson) :=
  names.map (fun n => getMovieData n oracle)

/-- The HTML card of `card(imdb_id, name, image, rating)` (lines 130–161),
represented by the data interpolated into the markup. -/
structure CardHtml where
  url : String
  image : String
  name : Option String
  rating : ℚ
  color : String
deriving DecidableEq

/-- The hard-coded Unsplash fallback used when the poster is missing. -/
def fallbackImage : String :=
  "https://images.unsplash.com/photo-1702651250304-2d1d94d1f847?q=80&w=1887&auto=format"

/-- `card` from lines 130–161: pick the rating colour by thresholds and the
IMDb link from the optional id. -/
def card (imdb_id : Option String) (name : Option String) (image : String)
    (rating : ℚ) : CardHtml :=
  let color := "rgb(220, 38, 38)"
  let color := if rating > 5.5 then "rgb(251, 146, 60)" else color
  let color := if rating > 7.5 then "rgb(34, 197, 94)" else color
  let url := match imdb_id with
    | some i => "https://www.imdb.com/title/" ++ i
    | none => "https://www.imdb.com/"
  { url := url, image := image, name := name, rating := rating, color := color }

/-- Membership in `empty_values = ["N/A", None]` (line 174). -/
def isEmptyVal (v : Option String) : Bool :=
  v == some "N/A" || v == none

/-- `digitsToNat` reads a digit string as a natural number. -/
def digitsToNat (l : List Char) : Nat :=
  l.foldl (fun acc c => 10 * acc + (c.toNat - Char.toNat '0')) 0

/-- Python `float(s)` on an unsigned decimal literal: digits, optionally a
point and more digits, at least one digit overall; anything else raises
`ValueError` (`none`).  Exponents/`inf`/`nan` are outside the modelled paths. -/
def parseFloatCore (l : List Char) : Option ℚ :=
  let intPart := l.takeWhile Char.isDigit
  let rest := l.dropWhile Char.isDigit
  match rest with
  | [] => if intPart.isEmpty then none else some (digitsToNat intPart : ℚ)
  | c :: frac =>
      if c == '.' && frac.all Char.isDigit && !(intPart.isEmpty && frac.isEmpty)
      then some ((digitsToNat intPart : ℚ) + (digitsToNat frac : ℚ) / (10 : ℚ) ^ frac.length)
      else none

/-- Python `float(s)` with an optional sign. -/
def parseFloat (s : String) : Option ℚ :=
  match s.data with
  | '-' :: rest => (parseFloatCore rest).map (fun q => -q)
  | '+' :: rest => parseFloatCore rest
  | l => parseFloatCore l

/-- `handle_card_data(data)` from lines 164–190: `None` yields the empty
string (`.ok none`); otherwise the fields are normalised and passed to
`card`, where `float(rating)` may raise `ValueError` (`.error ()`). -/
def handle_card_data (data : Option MovieJson) :
    Except Unit (Option CardHtml) :=
  match data with
  | none => .ok none
  | some d =>
      let title := d.Title
      let image := if isEmptyVal d.Poster then fallbackImage else d.Poster.getD ""
      let ratingRaw : Option ℚ :=
        if isEmptyVal d.imdbRating then some 0 else parseFloat (d.imdbRating.getD "")
      let imdb_id := if isEmptyVal d.imdbID then none else d.imdbID
      match ratingRaw with
      | none => .error ()
      | some r => .ok (some (card imdb_id title image r))

/-- `"".join(map(handle_card_data, result))` in `main` (lines 212–221): one
string per result, evaluated left to right, aborting at the first uncaught
exception. -/
def renderAll : List (Option MovieJson) → Except Unit (List (Option CardHtml))
  | [] => .ok []
  | d :: rest =>
      match handle_card_data d with
      | .error e => .error e
      | .ok c =>
          match renderAll rest with
          | .error e => .error e
          | .ok cs => .ok (c :: cs)

instance {e a : Type} [DecidableEq e] [DecidableEq a] : DecidableEq (Except e a) :=
  fun x y =>
    match x, y with
    | .ok u, .ok v => decidable_of_iff (u = v) (by simp)
    | .error u, .error v => decidable_of_iff (u = v) (by simp)
    | .ok _, .error _ => isFalse (by simp)
    | .error _, .ok _ => isFalse (by simp)

/-- The worked example of spec §8: catalog of four titles.  Similarity scores
are scaled by 100 (only their order matters): row 0 is the spec's
`[1.0, 0.9, 0.95, 0.2]`. -/
def exTitles : List String := ["Alpha", "Beta", "Alpha 2", "Gamma"]

/-- Similarity matrix for `exTitles` (symmetric, 100 on the diagonal). -/
def exSim : List (List ℚ) :=
  [[100, 90, 95, 20], [90, 100, 50, 10], [95, 50, 100, 10], [20, 10, 10, 100]]

/-- A catalog with a duplicated title and tied similarity scores. -/
def dupTitles : List String := ["A", "B", "B"]

/-- Similarity matrix for `dupTitles`; both `B` rows tie at score 90 from
`A`. -/
def dupSim : List (List ℚ) :=
  [[100, 90, 90], [90, 100, 100], [90, 100, 100]]

/-- A network oracle on which every request raises. -/
def oracleFailAll : String → Except Unit MovieJson := fun _ => .error ()

/-- The OMDb body for an unknown title: `Response: False` and no data keys. -/
def notFoundJson : MovieJson :=
  { Title := none, Poster := none, imdbRating := none, imdbID := none,
    Response := some "False" }

/-- An oracle whose HTTP+JSON step succeeds with the not-found body. -/
def oracleNotFound : String → Except Unit MovieJson := fun _ => .ok notFoundJson

/-- A payload whose rating string is non-numeric and not the `"N/A"`
sentinel. -/
def badRatingJson : MovieJson :=
  { Title := some "X", Poster := some "poster.jpg", imdbRating := some "abc",
    imdbID := some "tt0000001", Response := some "True" }

/-- A payload whose rating is the `"N/A"` sentinel. -/
def naRatingJson : MovieJson :=
  { Title := some "X", Poster := some "poster.jpg", imdbRating := some "N/A",
    imdbID := none, Response := some "True" }

theorem getD_map_of_lt (f : α → β) (l : List α) (i : Nat) (hi : i < l.length)
    (d : α) (d' : β) : (l.map f).getD i d' = f (l.getD i d) := by
  induction l generalizing i with
  | nil => simp at hi
  | cons a t ih =>
      cases i with
      | zero => simp
      | succ n => simpa using ih n (by simpa using hi)

theorem firstMatchIndex_eq_none (movie : String) (titles : List String)
    (h : ∀ t ∈ titles, t ≠ movie) : firstMatchIndex movie titles = none := by
  induction titles with
  | nil => rfl
  | cons a t ih =>
      have ha : (a == movie) = false := beq_eq_false_iff_ne.mpr (h a (by simp))
      simp only [firstMatchIndex, ha, if_false]
      rw [ih (fun x hx => h x (by simp [hx]))]
      rfl

theorem recommend_found (titles : List String) (similarity : List (List ℚ))
    (movie : String) (idx : Nat) (length : Int)
    (hfound : firstMatchIndex movie titles = some idx) :
    recommend titles similarity movie length =
      .ok (pySliceTo (eligible titles movie (similarity.getD idx [])) length) := by
  simp [recommend, hfound]

theorem pySliceTo_subset (l : List α) (n : Int) : pySliceTo l n ⊆ l := by
  unfold pySliceTo
  split <;> exact List.take_subset _ _

theorem pySliceTo_isPrefix (l : List α) (n : Int) : pySliceTo l n <+: l := by
  unfold pySliceTo
  split <;> exact List.take_prefix _ _

theorem renderAll_length (results : List (Option MovieJson))
    (out : List (Option CardHtml)) (h : renderAll results = .ok out) :
    out.length = results.length := by
  induction results generalizing out with
  | nil =>
      simp only [renderAll] at h
      cases h
      rfl
  | cons d rest ih =>
      simp only [renderAll] at h
      cases hc : handle_card_data d with
      | error e => rw [hc] at h; cases h
      | ok c =>
          rw [hc] at h
          cases hr : renderAll rest with
          | error e => rw [hr] at h; cases h
          | ok cs =>
              rw [hr] at h
              cases h
              simpa using ih cs hr

/-- Claim C1: `getAllMovies` returns exactly one result per input title and in
the input order: the output has the input's length, and for every position
`i` below that length the `i`-th output is exactly the fetch result for the
`i`-th input title.  Nothing is reordered, dropped or duplicated. -/
theorem C1_getAllMovies_aligned (names : List String)
    (oracle : String → Except Unit MovieJson) :
    (getAllMovies names oracle).length = names.length ∧
    ∀ i, i < names.length →
      (getAllMovies names oracle).getD i none
        = getMovieData (names.getD i "") oracle := by
  refine ⟨by simp [getAllMovies], ?_⟩
  intro i hi
  exact getD_map_of_lt _ _ _ hi _ _

theorem C1_witness :
    0 < (["Alpha", "Beta"] : List String).length ∧
    (getAllMovies ["Alpha", "Beta"] oracleFailAll).getD 0 none
      = getMovieData (["Alpha", "Beta"].getD 0 "") oracleFailAll :=
  ⟨by decide, (C1_getAllMovies_aligned ["Alpha", "Beta"] oracleFailAll).2 0 (by decide)⟩

/-- Claim C2: a failure in a single fetch becomes `none` (Python `None`, the
spec's Absent) at the boundary of `getMovieData`; a batch in which every
fetch raises returns `N` `none` results and raises nothing. -/
theorem C2_all_failures_absorbed (names : List String)
    (oracle : String → Except Unit MovieJson)
    (h : ∀ n ∈ names, ∃ e, oracle n = .error e) :
    getAllMovies names oracle = List.replicate names.length none := by
  induction names with
  | nil => rfl
  | cons a t ih =>
      obtain ⟨e, he⟩ := h a (by simp)
      have ht := ih (fun n hn => h n (by simp [hn]))
      have h1 : getMovieData a oracle = none := by simp [getMovieData, he]
      calc getAllMovies (a :: t) oracle
          = getMovieData a oracle :: getAllMovies t oracle := rfl
        _ = none :: List.replicate t.length none := by rw [h1, ht]
        _ = List.replicate (a :: t).length none := rfl

theorem C2_witness :
    (∀ n ∈ (["X", "Y"] : List String), ∃ e, oracleFailAll n = .error e) ∧
    getAllMovies ["X", "Y"] oracleFailAll = List.replicate 2 none :=
  ⟨fun _ _ => ⟨(), rfl⟩,
    C2_all_failures_absorbed ["X", "Y"] oracleFailAll (fun _ _ => ⟨(), rfl⟩)⟩

/-- Claim C3: a title that matches no catalog row makes `recommend` fail with
`NotFoundError` (the `IndexError` of `.index[0]` on an empty selection); no
recommendation list is produced. -/
theorem C3_absent_title_fails (titles : List String)
    (similarity : List (List ℚ)) (movie : String) (length : Int)
    (h : ∀ t ∈ titles, t ≠ movie) :
    recommend titles similarity movie length = .error .NotFoundError := by
  simp [recommend, firstMatchIndex_eq_none movie titles h]

theorem C3_witness :
    (∀ t ∈ (["A"] : List String), t ≠ "B") ∧
    recommend ["A"] [[100]] "B" 1 = .error .NotFoundError :=
  ⟨by decide, C3_absent_title_fails ["A"] [[100]] "B" 1 (by decide)⟩

/-- Claim C4: for a title present in the catalog (first matching row `idx`)
and a positive count `K`, `recommend` succeeds with at most `K` titles, none
of which equals the query or contains it as a substring, and if `K` is at
least the number of eligible candidates the result is exactly the eligible
candidate list, unpadded. -/
theorem C4_recommend_bounds (titles : List String)
    (similarity : List (List ℚ)) (movie : String) (K : Int) (idx : Nat)
    (hfound : firstMatchIndex movie titles = some idx) (hK : 0 < K) :
    ∃ r, recommend titles similarity movie K = .ok r ∧
      (r.length : Int) ≤ K ∧
      (∀ s ∈ r, strContains movie s = false ∧ s ≠ movie) ∧
      (((eligible titles movie (similarity.getD idx [])).length : Int) ≤ K →
        r = eligible titles movie (similarity.getD idx [])) := by
  have hK0 : 0 ≤ K := le_of_lt hK
  refine ⟨pySliceTo (eligible titles movie (similarity.getD idx [])) K,
    recommend_found titles similarity movie idx K hfound, ?_, ?_, ?_⟩
  · rw [show pySliceTo (eligible titles movie (similarity.getD idx [])) K
        = (eligible titles movie (similarity.getD idx [])).take K.toNat from by
      simp [pySliceTo, hK0]]
    rw [List.length_take]
    omega
  · intro s hs
    have hs' : s ∈ eligible titles movie (similarity.getD idx []) :=
      pySliceTo_subset _ K hs
    obtain ⟨p, hp, rfl⟩ := List.mem_map.mp hs'
    have hp' : p ∈ ((sortedDistances (similarity.getD idx [])).drop 1).filter
        (fun i => ! strContains movie (titles.getD i.1 "")) := hp
    have hpf := (List.mem_filter.mp hp').2
    have hc : strContains movie (titles.getD p.1 "") = false := by
      simpa using hpf
    refine ⟨hc, fun heq => ?_⟩
    rw [heq] at hc
    have : strContains movie movie = true := decide_eq_true (List.infix_refl _)
    rw [this] at hc
    cases hc
  · intro hle
    have hlen : (eligible titles movie (similarity.getD idx [])).length ≤ K.toNat := by
      omega
    unfold pySliceTo
    rw [if_pos hK0]
    exact List.take_of_length_le hlen

theorem C4_witness :
    firstMatchIndex "Alpha" exTitles = some 0 ∧ (0 : Int) < 2 ∧
    ∃ r, recommend exTitles exSim "Alpha" 2 = .ok r ∧
      (r.length : Int) ≤ 2 ∧
      (∀ s ∈ r, strContains "Alpha" s = false ∧ s ≠ "Alpha") ∧
      (((eligible exTitles "Alpha" (exSim.getD 0 [])).length : Int) ≤ 2 →
        r = eligible exTitles "Alpha" (exSim.getD 0 [])) :=
  ⟨by rfl, by decide,
    C4_recommend_bounds exTitles exSim "Alpha" 2 0 (by rfl) (by decide)⟩

/-- Claim C5 counterexample: the catalog `["A", "B", "B"]` carries a
duplicated title; `recommend "A" 3` returns `["B", "B"]`, which has duplicate
titles, so the no-duplicates (and hence strict descent) guarantee fails. -/
theorem C5_counterexample :
    recommend dupTitles dupSim "A" 3 = .ok ["B", "B"] ∧
    ¬ (["B", "B"] : List String).Nodup :=
  ⟨by decide, by decide⟩

/-- Claim C5 (amended): the candidate list is sorted by weakly descending
similarity score (ties keep catalog order, so strict descent can fail), and
the returned list is a prefix of the eligible candidates (so it inherits that
weak order); titles can repeat when distinct catalog rows share a title. -/
theorem C5_amended_weak_descent (titles : List String)
    (similarity : List (List ℚ)) (movie : String) (K : Int) (idx : Nat)
    (r : List String)
    (hfound : firstMatchIndex movie titles = some idx)
    (hok : recommend titles similarity movie K = .ok r) :
    List.Pairwise scoreGe (eligiblePairs titles movie (similarity.getD idx [])) ∧
    r <+: eligible titles movie (similarity.getD idx []) := by
  constructor
  · have hs : List.Sorted scoreGe (sortedDistances (similarity.getD idx [])) :=
      List.sorted_insertionSort scoreGe _
    have hsub : List.Sublist
        (eligiblePairs titles movie (similarity.getD idx []))
        (sortedDistances (similarity.getD idx [])) :=
      (List.filter_sublist _).trans (List.drop_sublist 1 _)
    exact hs.sublist hsub
  · rw [recommend_found titles similarity movie idx K hfound] at hok
    obtain rfl := Except.ok.inj hok
    exact pySliceTo_isPrefix _ K

theorem C5_amended_witness :
    firstMatchIndex "A" dupTitles = some 0 ∧
    recommend dupTitles dupSim "A" 3 = .ok ["B", "B"] ∧
    (List.Pairwise scoreGe (eligiblePairs dupTitles "A" (dupSim.getD 0 [])) ∧
      ["B", "B"] <+: eligible dupTitles "A" (dupSim.getD 0 [])) :=
  ⟨by rfl, by decide,
    C5_amended_weak_descent dupTitles dupSim "A" 3 0 ["B", "B"] (by rfl) (by decide)⟩

/-- Claim C6 counterexample: `recommend` contains no count validation at all.
A count of `0` is not rejected: ranking runs and the slice returns `.ok []`;
a count of `-1` returns all but the last eligible candidate (Python slice
semantics), again without any `ValidationFailure`. -/
theorem C6_counterexample :
    recommend exTitles exSim "Alpha" 0 = .ok [] ∧
    recommend exTitles exSim "Alpha" (-1) = .ok ["Beta"] :=
  ⟨by decide, by decide⟩

/-- Claim C6 (amended): `recommend` performs no count validation; a
non-positive count flows into the final slice `recommendations[:length]`, so
the call still succeeds with a (possibly empty) sub-list of the eligible
candidates, and a count of exactly `0` yields the empty list. -/
theorem C6_amended_no_validation (titles : List String)
    (similarity : List (List ℚ)) (movie : String) (K : Int) (idx : Nat)
    (hfound : firstMatchIndex movie titles = some idx) (hK : K ≤ 0) :
    (∃ r, recommend titles similarity movie K = .ok r ∧
      r.length ≤ (eligible titles movie (similarity.getD idx [])).length) ∧
    (K = 0 → recommend titles similarity movie K = .ok []) := by
  constructor
  · refine ⟨pySliceTo (eligible titles movie (similarity.getD idx [])) K,
      recommend_found titles similarity movie idx K hfound, ?_⟩
    exact List.IsPrefix.length_le (pySliceTo_isPrefix _ K)
  · rintro rfl
    rw [recommend_found titles similarity movie idx 0 hfound]
    simp [pySliceTo]

theorem C6_witness :
    firstMatchIndex "Alpha" exTitles = some 0 ∧ (0 : Int) ≤ 0 ∧
    ((∃ r, recommend exTitles exSim "Alpha" 0 = .ok r ∧
      r.length ≤ (eligible exTitles "Alpha" (exSim.getD 0 [])).length) ∧
    ((0 : Int) = 0 → recommend exTitles exSim "Alpha" 0 = .ok [])) :=
  ⟨by rfl, by decide,
    C6_amended_no_validation exTitles exSim "Alpha" 0 0 (by rfl) (by decide)⟩

/-- Claim C7 counterexample: a result with Absent metadata (`None`) is NOT
rendered as a fallback card — `handle_card_data(None)` returns the empty
string (`.ok none`, no card), not a card carrying the fallback image and a
zero rating, so that recommendation is omitted from the rendered output. -/
theorem C7_counterexample :
    handle_card_data none = .ok none ∧
    handle_card_data none ≠ .ok (some (card none none fallbackImage 0)) :=
  ⟨rfl, by decide⟩

/-- Claim C7 (amended): only a non-`None` payload with missing/sentinel
fields is rendered with the fallback image and zero rating; a `None` (Absent)
result is rendered as the empty string, i.e. produces no card.  The rendering
map still yields exactly one string per enriched result, so the number of
joined strings (cards plus empty strings) equals the number of ranked
titles. -/
theorem C7_amended_render (j : MovieJson)
    (hp : isEmptyVal j.Poster = true) (hr : isEmptyVal j.imdbRating = true) :
    (∃ c, handle_card_data (some j) = .ok (some c) ∧
      c.image = fallbackImage ∧ c.rating = 0) ∧
    handle_card_data none = .ok none ∧
    (∀ results out, renderAll results = .ok out → out.length = results.length) := by
  refine ⟨?_, rfl, fun results out h => renderAll_length results out h⟩
  refine ⟨card (if isEmptyVal j.imdbID then none else j.imdbID) j.Title
      fallbackImage 0, ?_, rfl, rfl⟩
  simp [handle_card_data, hp, hr]

theorem C7_witness :
    isEmptyVal naRatingJson.Poster = false ∧
    isEmptyVal
      ({ naRatingJson with Poster := none } : MovieJson).Poster = true ∧
    isEmptyVal ({ naRatingJson with Poster := none } : MovieJson).imdbRating = true ∧
    ∃ c, handle_card_data (some { naRatingJson with Poster := none }) = .ok (some c) ∧
      c.image = fallbackImage ∧ c.rating = 0 :=
  ⟨rfl, rfl, rfl,
    (C7_amended_render { naRatingJson with Poster := none } rfl rfl).1⟩

/-- Claim C8 counterexample: when the provider answers with a decodable body
whose `Response` field is `"False"` (title not found), `getMovieData` returns
that raw payload unchanged — `some notFoundJson`, not Absent (`none`): the
code never inspects the `Response` field. -/
theorem C8_counterexample :
    notFoundJson.Response = some "False" ∧
    getMovieData "UnknownTitle999" oracleNotFound = some notFoundJson ∧
    getMovieData "UnknownTitle999" oracleNotFound ≠ none :=
  ⟨rfl, rfl, by decide⟩

/-- Claim C8 (amended): whenever the HTTP request and JSON decoding succeed,
`getMovieData` returns the raw response payload unchanged, even when that
payload announces `Response: "False"`; only a raised exception produces
Absent (`none`). -/
theorem C8_amended_raw_payload (name : String)
    (oracle : String → Except Unit MovieJson) (j : MovieJson)
    (_hresp : j.Response = some "False") (h : oracle name = .ok j) :
    getMovieData name oracle = some j := by
  simp [getMovieData, h]

theorem C8_witness :
    notFoundJson.Response = some "False" ∧
    oracleNotFound "UnknownTitle999" = .ok notFoundJson ∧
    getMovieData "UnknownTitle999" oracleNotFound = some notFoundJson :=
  ⟨rfl, rfl, C8_amended_raw_payload "UnknownTitle999" oracleNotFound notFoundJson rfl rfl⟩

/-- Claim C9 counterexample: a fetched record whose rating string is
non-numeric but different from the `"N/A"` sentinel (here `"abc"`) makes
`float(rating)` raise an uncaught `ValueError` (`.error ()`): the failure is
a crash of the rendering step, not an Absent result. -/
theorem C9_counterexample :
    isEmptyVal badRatingJson.imdbRating = false ∧
    handle_card_data (some badRatingJson) = .error () :=
  ⟨rfl, rfl⟩

/-- Claim C9 (amended): a rating equal to the `"N/A"` sentinel (or a missing
rating) normalizes to `0.0` and the card is rendered, but any other rating
string that does not parse as a float raises an uncaught `ValueError`
(`.error ()`) instead of being converted to Absent. -/
theorem C9_amended_rating (j : MovieJson) :
    (isEmptyVal j.imdbRating = true →
      ∃ c, handle_card_data (some j) = .ok (some c) ∧ c.rating = 0) ∧
    (∀ s, j.imdbRating = some s → isEmptyVal (some s) = false →
      parseFloat s = none → handle_card_data (some j) = .error ()) := by
  constructor
  · intro h
    exact ⟨card (if isEmptyVal j.imdbID then none else j.imdbID) j.Title
        (if isEmptyVal j.Poster then fallbackImage else j.Poster.getD "") 0,
      by simp [handle_card_data, h], rfl⟩
  · intro s hs hne hparse
    simp [handle_card_data, hs, hne, hparse]

theorem C9_witness :
    isEmptyVal naRatingJson.imdbRating = true ∧
    ∃ c, handle_card_data (some naRatingJson) = .ok (some c) ∧ c.rating = 0 :=
  ⟨rfl, (C9_amended_rating naRatingJson).1 rfl⟩

/-- Claim C10: for a catalog title and counts `0 ≤ k ≤ k'`, the list returned
for count `k` is a prefix of the list returned for count `k'`: the
filtered, sorted candidate list is fixed and only truncated by the count. -/
theorem C10_prefix_monotone (titles : List String)
    (similarity : List (List ℚ)) (movie : String) (k k' : Int)
    (r r' : List String) (hk : 0 ≤ k) (hkk : k ≤ k')
    (h : recommend titles similarity movie k = .ok r)
    (h' : recommend titles similarity movie k' = .ok r') :
    r <+: r' := by
  cases hidx : firstMatchIndex movie titles with
  | none => rw [recommend, hidx] at h; cases h
  | some idx =>
      rw [recommend_found titles similarity movie idx k hidx] at h
      rw [recommend_found titles similarity movie idx k' hidx] at h'
      obtain rfl := Except.ok.inj h
      obtain rfl := Except.ok.inj h'
      have hk' : 0 ≤ k' := le_trans hk hkk
      unfold pySliceTo
      rw [if_pos hk, if_pos hk']
      rw [List.take_isPrefix_take]
      left
      omega

theorem C10_witness :
    (0 : Int) ≤ 1 ∧ (1 : Int) ≤ 2 ∧
    recommend exTitles exSim "Alpha" 1 = .ok ["Beta"] ∧
    recommend exTitles exSim "Alpha" 2 = .ok ["Beta", "Gamma"] ∧
    (["Beta"] : List String) <+: ["Beta", "Gamma"] :=
  ⟨by decide, by decide, by decide, by decide,
    C10_prefix_monotone exTitles exSim "Alpha" 1 2 ["Beta"] ["Beta", "Gamma"]
      (by decide) (by decide) (by decide) (by decide)⟩

end MovieRec
